import Mathlib

/-
Verification of the two gem5 configuration scripts of the Residency
repository: dvfs_config.py (3-phase DVFS experiment) and
remove_l2cache_config.py (single uninterrupted run).

The scripts are shallowly embedded: the topology built by createIoTSystem
is a Lean structure, the straight-line main section of each script is a
list of commands, and the external m5 engine (not part of the repository)
is modelled from the specification as an oracle-parametrized state machine
exposing instantiate, advance (bounded or unbounded), resetStatistics,
dumpStatistics and currentTick.
-/

namespace Residency

/-- Port endpoints of the topology graph, named after the gem5 ports the
scripts bind. -/
inductive Port where
  | cpu_icache_port
  | cpu_dcache_port
  | icache_cpu_side
  | icache_mem_side
  | dcache_cpu_side
  | dcache_mem_side
  | membus_cpu_side_ports
  | membus_mem_side_ports
  | interrupts_pio
  | interrupts_int_requestor
  | interrupts_int_responder
  | mem_ctrl_port
  | l2_cpu_side
  | l2_mem_side
deriving DecidableEq, Repr

/-- Python classes of the L1 cache hierarchy in both scripts: the generic
base L1Cache and its two specializations. -/
inductive CacheClass where
  | L1Cache
  | L1ICache
  | L1DCache
deriving DecidableEq, Repr

/-- An L1-family cache object: its class, the class attributes read off the
source, and its two connectable sides (none while unconnected). -/
structure CacheObj where
  cls : CacheClass
  size : Option String
  assoc : Nat
  tag_latency : Nat
  data_latency : Nat
  response_latency : Nat
  mshrs : Nat
  tgts_per_mshr : Nat
  cpu_side : Option Port
  mem_side : Option Port
deriving DecidableEq, Repr

/-- A freshly constructed object of the generic base class L1Cache
(assoc 2, latencies 2, mshrs 4, tgts_per_mshr 20, no size attribute). -/
def mkL1Cache : CacheObj :=
  { cls := .L1Cache, size := none, assoc := 2, tag_latency := 2,
    data_latency := 2, response_latency := 2, mshrs := 4,
    tgts_per_mshr := 20, cpu_side := none, mem_side := none }

/-- A freshly constructed L1ICache (inherits L1Cache attributes,
size 8kB). -/
def mkL1ICache : CacheObj :=
  { mkL1Cache with cls := .L1ICache, size := some "8kB" }

/-- A freshly constructed L1DCache (inherits L1Cache attributes,
size 8kB). -/
def mkL1DCache : CacheObj :=
  { mkL1Cache with cls := .L1DCache, size := some "8kB" }

/-- The CPU object as seen by connectCPU: it carries the two ports a cache
may bind to. -/
structure CPUObj where
  icache_port : Port
  dcache_port : Port
deriving DecidableEq, Repr

/-- Dynamic dispatch of the connectCPU method on the L1 hierarchy: the base
class L1Cache raises NotImplementedError; L1ICache binds cpu_side to the
icache port of the CPU; L1DCache binds cpu_side to the dcache port. -/
def CacheObj.connectCPU (c : CacheObj) (cpu : CPUObj) :
    Except String CacheObj :=
  match c.cls with
  | .L1Cache => .error "NotImplementedError"
  | .L1ICache => .ok { c with cpu_side := some cpu.icache_port }
  | .L1DCache => .ok { c with cpu_side := some cpu.dcache_port }

/-- The connectBus method defined on L1Cache and inherited by both
subclasses: binds mem_side to the cpu side ports of the bus. -/
def CacheObj.connectBus (c : CacheObj) (busCpuSide : Port) : CacheObj :=
  { c with mem_side := some busCpuSide }

/-- The L2Cache class defined (but never instantiated) in both scripts. -/
structure L2CacheObj where
  size : String
  assoc : Nat
  tag_latency : Nat
  data_latency : Nat
  response_latency : Nat
  mshrs : Nat
  tgts_per_mshr : Nat
  cpu_side : Option Port
  mem_side : Option Port
deriving DecidableEq, Repr

/-- A freshly constructed L2Cache object, from the class attributes in the
source (size 64kB, assoc 4, latencies 20, mshrs 20, tgts_per_mshr 12). -/
def mkL2Cache : L2CacheObj :=
  { size := "64kB", assoc := 4, tag_latency := 20, data_latency := 20,
    response_latency := 20, mshrs := 20, tgts_per_mshr := 12,
    cpu_side := none, mem_side := none }

/-- The connectCPUSideBus method of L2Cache. -/
def L2CacheObj.connectCPUSideBus (c : L2CacheObj) (busMemSide : Port) :
    L2CacheObj :=
  { c with cpu_side := some busMemSide }

/-- The connectMemSideBus method of L2Cache. -/
def L2CacheObj.connectMemSideBus (c : L2CacheObj) (busCpuSide : Port) :
    L2CacheObj :=
  { c with mem_side := some busCpuSide }

/-- The system topology built by createIoTSystem, flattened into one
record. Python attribute aliasing (cpu_clk_domain.voltage_domain is the
same object as cpu_voltage_domain) is resolved by storing each shared
domain once. Fields that the scripts never assign are Option-valued and
none. -/
structure SystemCfg where
  clk_domain_clock : String
  clk_domain_voltage : String
  mem_mode : String
  mem_ranges : List String
  cpu_kind : String
  cpu_clk_domain_clock : String
  cpu_voltage_domain_voltage : Option String
  cpu_clk_domain_domain_id : Option Nat
  has_dvfs_handler : Bool
  dvfs_handler_domains : List String
  icache : CacheObj
  dcache : CacheObj
  l2cache : Option L2CacheObj
  interrupt_bindings : List (Port × Port)
  mem_ctrl_dram : String
  mem_ctrl_dram_range : String
  mem_ctrl_port : Option Port
  mem_ctrl_min_writes_per_switch : Nat
  mem_ctrl_static_backend_latency : String
  mem_ctrl_static_frontend_latency : String
  workload : Option String
  cpu_workload_cmd : Option (List String)
deriving DecidableEq, Repr

/-- The CPU of both scripts: a TimingSimpleCPU whose icache and dcache
ports are the two CPU-side endpoints. -/
def theCPU : CPUObj :=
  { icache_port := .cpu_icache_port, dcache_port := .cpu_dcache_port }

/-- Topology construction shared by both scripts, parametrized by whether
the DVFS handler block (dvfs_config.py lines 73-77) is present. Each step
mirrors one statement of createIoTSystem; the connectCPU calls go through
the dispatched method and propagate its possible construction error. -/
def createIoTSystem (withDvfsHandler : Bool) : Except String SystemCfg := do
  let icache0 := mkL1ICache
  let dcache0 := mkL1DCache
  let icache1 ← icache0.connectCPU theCPU
  let dcache1 ← dcache0.connectCPU theCPU
  let icache2 := icache1.connectBus .membus_cpu_side_ports
  let dcache2 := dcache1.connectBus .membus_cpu_side_ports
  .ok
    { clk_domain_clock := "500MHz"
      clk_domain_voltage := "0.9V"
      mem_mode := "timing"
      mem_ranges := ["512MB"]
      cpu_kind := "TimingSimpleCPU"
      cpu_clk_domain_clock := "500MHz"
      cpu_voltage_domain_voltage := none
      cpu_clk_domain_domain_id := if withDvfsHandler then some 0 else none
      has_dvfs_handler := withDvfsHandler
      dvfs_handler_domains :=
        if withDvfsHandler then ["cpu_clk_domain"] else []
      icache := icache2
      dcache := dcache2
      l2cache := none
      interrupt_bindings :=
        [(.interrupts_pio, .membus_mem_side_ports),
         (.interrupts_int_requestor, .membus_cpu_side_ports),
         (.interrupts_int_responder, .membus_mem_side_ports)]
      mem_ctrl_dram := "DDR3_1600_8x8"
      mem_ctrl_dram_range := "512MB"
      mem_ctrl_port := some .membus_mem_side_ports
      mem_ctrl_min_writes_per_switch := 8
      mem_ctrl_static_backend_latency := "10ns"
      mem_ctrl_static_frontend_latency := "10ns"
      workload := none
      cpu_workload_cmd := none }

/-- The createIoTSystem of dvfs_config.py (attaches the DVFSHandler and
sets domain_id). -/
def createIoTSystemDvfs : Except String SystemCfg := createIoTSystem true

/-- The createIoTSystem of remove_l2cache_config.py (no DVFSHandler
block). -/
def createIoTSystemNoL2 : Except String SystemCfg := createIoTSystem false

/-- The workload binary path both scripts hard-code. -/
def binaryPath : String := "tests/test-progs/hello/bin/x86/linux/hello"

/-- Workload attachment performed by both scripts after construction:
system.workload and the process command on the CPU. -/
def attachWorkload (s : SystemCfg) : SystemCfg :=
  { s with workload := some binaryPath,
           cpu_workload_cmd := some [binaryPath] }

/-- Observable events logged by a run: engine invocations and the final
termination report. An advance event records the bound passed to
m5.simulate (none for unbounded), the tick at which it started, the tick
at which it stopped, and the termination cause it returned. -/
inductive Event where
  | instantiated
  | clockSet (clock : String)
  | voltageSet (voltage : String)
  | reset
  | advance (limit : Option Nat) (startTick stopTick : Nat) (cause : String)
  | dump
  | report (tick : Nat) (cause : String)
deriving DecidableEq, Repr

/-- Modelled from the spec: the external simulation engine (m5) is not part
of this repository; section 6 of the spec gives its contract
(advance(duration or unbounded) yielding a termination cause,
resetStatistics, dumpStatistics, currentTick). The oracle supplies what
the engine alone determines: the termination cause of the n-th advance
call, and the ticks an unbounded advance elapses. Per the spec (section
4.2 step 3 and section 8), a bounded advance advances simulated time by
exactly its duration. -/
structure SimOracle where
  cause : Nat → String
  unboundedElapsed : Nat → Nat

/-- A printed line, with the interpolated values kept structured: a plain
message, a phase-completed line carrying the current tick, or the final
exit line carrying the tick and the cause. -/
inductive OutLine where
  | msg (text : String)
  | phaseDone (label : String) (tick : Nat)
  | exitLine (tick : Nat) (cause : String)
deriving DecidableEq, Repr

/-- Full state of an executing script: the topology, the engine tick
counter, the number of advance calls made so far, the current exit_event
binding (its cause string), the printed lines, and the event log. -/
structure ExecState where
  sys : SystemCfg
  tick : Nat
  calls : Nat
  lastExitCause : Option String
  output : List OutLine
  log : List Event
deriving Repr

/-- Initial execution state for a constructed system: tick 0, no advance
calls yet, no exit_event bound, nothing printed or logged. -/
def initState (sys : SystemCfg) : ExecState :=
  { sys := sys, tick := 0, calls := 0, lastExitCause := none,
    output := [], log := [] }

/-- Straight-line commands appearing in the main sections of the two
scripts, one constructor per kind of statement. -/
inductive Cmd where
  | instantiate
  | printMsg (msg : String)
  | setClock (clock : String)
  | setVoltage (voltage : String)
  | statsReset
  | simulate (limit : Option Nat)
  | statsDump
  | printTick (label : String)
  | reportExit
deriving DecidableEq, Repr

/-- One interpreter step. setClock and setVoltage write the CPU clock
domain clock and CPU voltage domain voltage of the topology; simulate
advances the tick (by the bound, or by the oracle-given elapsed ticks when
unbounded) and rebinds exit_event to the oracle-given cause; printTick
prints the label with the current tick; reportExit prints the final line
from the current tick and the bound cause. -/
def step (o : SimOracle) (s : ExecState) : Cmd → ExecState
  | .instantiate => { s with log := s.log ++ [.instantiated] }
  | .printMsg m => { s with output := s.output ++ [.msg m] }
  | .setClock c =>
      { s with sys := { s.sys with cpu_clk_domain_clock := c },
               log := s.log ++ [.clockSet c] }
  | .setVoltage v =>
      { s with sys := { s.sys with cpu_voltage_domain_voltage := some v },
               log := s.log ++ [.voltageSet v] }
  | .statsReset => { s with log := s.log ++ [.reset] }
  | .simulate limit =>
      let d := match limit with
        | some d => d
        | none => o.unboundedElapsed s.calls
      let c := o.cause s.calls
      { s with tick := s.tick + d,
               calls := s.calls + 1,
               lastExitCause := some c,
               log := s.log ++ [.advance limit s.tick (s.tick + d) c] }
  | .statsDump => { s with log := s.log ++ [.dump] }
  | .printTick label =>
      { s with output := s.output ++ [.phaseDone label s.tick] }
  | .reportExit =>
      let c := (s.lastExitCause).getD ""
      { s with
          output := s.output ++ [.exitLine s.tick c],
          log := s.log ++ [.report s.tick c] }

/-- Run a command list from a state. -/
def runCmds (o : SimOracle) (s : ExecState) (cs : List Cmd) : ExecState :=
  cs.foldl (step o) s

/-- Instantiation, the opening print, and phase 1 of dvfs_config.py
(lines 123-138), statement by statement. -/
def dvfsPhase1 : List Cmd :=
  [.instantiate,
   .printMsg "Beginning simulation of IoT x86 system with low-power design",
   .printMsg "\n[Phase 1] Running at 500MHz (high performance)...",
   .setClock "500MHz", .setVoltage "0.9V",
   .statsReset, .simulate (some 20000000), .statsDump,
   .printTick "Phase 1"]

/-- Phase 2 of dvfs_config.py (lines 140-151). -/
def dvfsPhase2 : List Cmd :=
  [.printMsg "\n[Phase 2] Changing frequency to 300MHz (power saving)...",
   .setClock "300MHz", .setVoltage "0.7V",
   .statsReset, .simulate (some 20000000), .statsDump,
   .printTick "Phase 2"]

/-- Phase 3 and the final report of dvfs_config.py (lines 153-165). -/
def dvfsPhase3 : List Cmd :=
  [.printMsg "\n[Phase 3] Returning to 500MHz for final phase...",
   .setClock "500MHz", .setVoltage "0.9V",
   .statsReset, .simulate none, .statsDump,
   .reportExit]

/-- The main section of dvfs_config.py (lines 123-165): the three phase
blocks in order. -/
def dvfsMain : List Cmd := dvfsPhase1 ++ dvfsPhase2 ++ dvfsPhase3

/-- The main section of remove_l2cache_config.py (lines 117-121). -/
def singleMain : List Cmd :=
  [.instantiate,
   .printMsg "Beginning simulation of IoT x86 system with low-power design",
   .simulate none,
   .reportExit]

/-- The whole dvfs_config.py script: build the topology, attach the
workload, run the 3-phase main section. The argv parameter is the command
line; the script imports argparse but never reads the arguments. -/
def runDvfs (o : SimOracle) (argv : List String) :
    Except String ExecState :=
  (createIoTSystemDvfs).map fun sys =>
    runCmds o (initState (attachWorkload sys)) dvfsMain

/-- The whole remove_l2cache_config.py script, likewise. -/
def runSingle (o : SimOracle) (argv : List String) :
    Except String ExecState :=
  (createIoTSystemNoL2).map fun sys =>
    runCmds o (initState (attachWorkload sys)) singleMain

/-- The system remove_l2cache_config.py constructs, written out field by
field. -/
def sysNoL2Built : SystemCfg :=
  { clk_domain_clock := "500MHz"
    clk_domain_voltage := "0.9V"
    mem_mode := "timing"
    mem_ranges := ["512MB"]
    cpu_kind := "TimingSimpleCPU"
    cpu_clk_domain_clock := "500MHz"
    cpu_voltage_domain_voltage := none
    cpu_clk_domain_domain_id := none
    has_dvfs_handler := false
    dvfs_handler_domains := []
    icache :=
      { cls := .L1ICache, size := some "8kB", assoc := 2, tag_latency := 2,
        data_latency := 2, response_latency := 2, mshrs := 4,
        tgts_per_mshr := 20, cpu_side := some .cpu_icache_port,
        mem_side := some .membus_cpu_side_ports }
    dcache :=
      { cls := .L1DCache, size := some "8kB", assoc := 2, tag_latency := 2,
        data_latency := 2, response_latency := 2, mshrs := 4,
        tgts_per_mshr := 20, cpu_side := some .cpu_dcache_port,
        mem_side := some .membus_cpu_side_ports }
    l2cache := none
    interrupt_bindings :=
      [(.interrupts_pio, .membus_mem_side_ports),
       (.interrupts_int_requestor, .membus_cpu_side_ports),
       (.interrupts_int_responder, .membus_mem_side_ports)]
    mem_ctrl_dram := "DDR3_1600_8x8"
    mem_ctrl_dram_range := "512MB"
    mem_ctrl_port := some .membus_mem_side_ports
    mem_ctrl_min_writes_per_switch := 8
    mem_ctrl_static_backend_latency := "10ns"
    mem_ctrl_static_frontend_latency := "10ns"
    workload := none
    cpu_workload_cmd := none }

/-- The system dvfs_config.py constructs: the same topology plus the
DVFSHandler attachment and the domain_id assignment. -/
def sysDvfsBuilt : SystemCfg :=
  { sysNoL2Built with
      cpu_clk_domain_domain_id := some 0
      has_dvfs_handler := true
      dvfs_handler_domains := ["cpu_clk_domain"] }

/-- Final execution state of dvfs_config.py, as a function of the engine
oracle: the third-phase clock and voltage are in force, the tick counter
sits at 40000000 plus whatever the unbounded third advance elapsed, three
advance calls were made, and the log records the three phase blocks
followed by the final report. -/
def dvfsFinalState (o : SimOracle) : ExecState :=
  { sys :=
      { sysDvfsBuilt with
          cpu_clk_domain_clock := "500MHz"
          cpu_voltage_domain_voltage := some "0.9V"
          workload := some binaryPath
          cpu_workload_cmd := some [binaryPath] }
    tick := 40000000 + o.unboundedElapsed 2
    calls := 3
    lastExitCause := some (o.cause 2)
    output :=
      [.msg "Beginning simulation of IoT x86 system with low-power design",
       .msg "\n[Phase 1] Running at 500MHz (high performance)...",
       .phaseDone "Phase 1" 20000000,
       .msg "\n[Phase 2] Changing frequency to 300MHz (power saving)...",
       .phaseDone "Phase 2" 40000000,
       .msg "\n[Phase 3] Returning to 500MHz for final phase...",
       .exitLine (40000000 + o.unboundedElapsed 2) (o.cause 2)]
    log :=
      [.instantiated,
       .clockSet "500MHz", .voltageSet "0.9V", .reset,
       .advance (some 20000000) 0 20000000 (o.cause 0), .dump,
       .clockSet "300MHz", .voltageSet "0.7V", .reset,
       .advance (some 20000000) 20000000 40000000 (o.cause 1), .dump,
       .clockSet "500MHz", .voltageSet "0.9V", .reset,
       .advance none 40000000 (40000000 + o.unboundedElapsed 2) (o.cause 2),
       .dump,
       .report (40000000 + o.unboundedElapsed 2) (o.cause 2)] }

/-- Final execution state of remove_l2cache_config.py, as a function of
the engine oracle: the topology is exactly as built (plus the workload
attachment), one advance call was made, and the log is instantiate,
advance, report. -/
def singleFinalState (o : SimOracle) : ExecState :=
  { sys := attachWorkload sysNoL2Built
    tick := o.unboundedElapsed 0
    calls := 1
    lastExitCause := some (o.cause 0)
    output :=
      [.msg "Beginning simulation of IoT x86 system with low-power design",
       .exitLine (o.unboundedElapsed 0) (o.cause 0)]
    log :=
      [.instantiated,
       .advance none 0 (o.unboundedElapsed 0) (o.cause 0),
       .report (o.unboundedElapsed 0) (o.cause 0)] }

/-- Execution state of dvfs_config.py right after phase 1. -/
def dvfsState1 (o : SimOracle) : ExecState :=
  { sys :=
      { sysDvfsBuilt with
          cpu_clk_domain_clock := "500MHz"
          cpu_voltage_domain_voltage := some "0.9V"
          workload := some binaryPath
          cpu_workload_cmd := some [binaryPath] }
    tick := 20000000
    calls := 1
    lastExitCause := some (o.cause 0)
    output :=
      [.msg "Beginning simulation of IoT x86 system with low-power design",
       .msg "\n[Phase 1] Running at 500MHz (high performance)...",
       .phaseDone "Phase 1" 20000000]
    log :=
      [.instantiated,
       .clockSet "500MHz", .voltageSet "0.9V", .reset,
       .advance (some 20000000) 0 20000000 (o.cause 0), .dump] }

/-- Execution state of dvfs_config.py right after phase 2. -/
def dvfsState2 (o : SimOracle) : ExecState :=
  { sys :=
      { sysDvfsBuilt with
          cpu_clk_domain_clock := "300MHz"
          cpu_voltage_domain_voltage := some "0.7V"
          workload := some binaryPath
          cpu_workload_cmd := some [binaryPath] }
    tick := 40000000
    calls := 2
    lastExitCause := some (o.cause 1)
    output :=
      [.msg "Beginning simulation of IoT x86 system with low-power design",
       .msg "\n[Phase 1] Running at 500MHz (high performance)...",
       .phaseDone "Phase 1" 20000000,
       .msg "\n[Phase 2] Changing frequency to 300MHz (power saving)...",
       .phaseDone "Phase 2" 40000000]
    log :=
      [.instantiated,
       .clockSet "500MHz", .voltageSet "0.9V", .reset,
       .advance (some 20000000) 0 20000000 (o.cause 0), .dump,
       .clockSet "300MHz", .voltageSet "0.7V", .reset,
       .advance (some 20000000) 20000000 40000000 (o.cause 1), .dump] }

/-- Phase-body events: frequency/voltage writes, statistics reset,
simulation advance, statistics dump. Prints and instantiation are not
phase steps. -/
def isPhaseStep : Event → Bool
  | .clockSet _ => true
  | .voltageSet _ => true
  | .reset => true
  | .advance _ _ _ _ => true
  | .dump => true
  | _ => false

/-- The event block one phase of the driver is expected to produce, in
order: frequency write, voltage write, reset, one advance over the window
from a to b, dump. -/
def phaseBlock (clock volt : String) (limit : Option Nat) (a b : Nat)
    (cause : String) : List Event :=
  [.clockSet clock, .voltageSet volt, .reset, .advance limit a b cause,
   .dump]

/-- Statistics-dump events. -/
def isDumpEvent : Event → Bool
  | .dump => true
  | _ => false

/-- Statistics-reset events. -/
def isResetEvent : Event → Bool
  | .reset => true
  | _ => false

/-- Termination-cause report events. -/
def isReportEvent : Event → Bool
  | .report _ _ => true
  | _ => false

/-- Frequency or voltage writes. -/
def isFreqVoltEvent : Event → Bool
  | .clockSet _ => true
  | .voltageSet _ => true
  | _ => false

/-- Simulation-advance events. -/
def isAdvanceEvent : Event → Bool
  | .advance _ _ _ _ => true
  | _ => false

/-- The tick and cause of a report event. -/
def reportOf : Event → Option (Nat × String)
  | .report t c => some (t, c)
  | _ => none

/-- The (startTick, stopTick) measurement windows of the advance events in
a log, in order. -/
def advanceWindows (l : List Event) : List (Nat × Nat) :=
  l.filterMap fun e =>
    match e with
    | .advance _ a b _ => some (a, b)
    | _ => none

/-- Overwrite the two fields the phase driver is allowed to mutate with
fixed values; two systems agree outside those fields iff their erasures
are equal. -/
def eraseClockVoltage (s : SystemCfg) : SystemCfg :=
  { s with cpu_clk_domain_clock := "", cpu_voltage_domain_voltage := none }

/-- Overwrite the DVFS-handler-related fields with their defaults; two
systems agree outside those fields iff their erasures are equal. -/
def eraseDvfsHandlerFields (s : SystemCfg) : SystemCfg :=
  { s with cpu_clk_domain_domain_id := none, has_dvfs_handler := false,
           dvfs_handler_domains := [] }

/-- A concrete engine oracle for counterexample evaluation: every advance
reports the workload-exit cause string and an unbounded advance elapses
1000 ticks. -/
def oUnit : SimOracle :=
  { cause := fun _ => "exiting with last active thread context",
    unboundedElapsed := fun _ => 1000 }

/-- Construction in the DVFS script succeeds and yields the explicit
system. -/
theorem createIoTSystemDvfs_eq : createIoTSystemDvfs = .ok sysDvfsBuilt :=
  rfl

/-- Construction in the single-run script succeeds and yields the explicit
system. -/
theorem createIoTSystemNoL2_eq : createIoTSystemNoL2 = .ok sysNoL2Built :=
  rfl

/-- Running commands over an appended list composes. -/
theorem runCmds_append (o : SimOracle) (s : ExecState)
    (cs1 cs2 : List Cmd) :
    runCmds o s (cs1 ++ cs2) = runCmds o (runCmds o s cs1) cs2 :=
  List.foldl_append _ _ _ _

/-- Phase 1 takes the freshly instantiated system to dvfsState1. -/
theorem runDvfs_phase1 (o : SimOracle) :
    runCmds o (initState (attachWorkload sysDvfsBuilt)) dvfsPhase1 =
      dvfsState1 o := by
  simp only [runCmds, dvfsPhase1, List.foldl_cons, List.foldl_nil, step,
    initState, attachWorkload, dvfsState1]
  norm_num

/-- Phase 2 takes dvfsState1 to dvfsState2. -/
theorem runDvfs_phase2 (o : SimOracle) :
    runCmds o (dvfsState1 o) dvfsPhase2 = dvfsState2 o := by
  simp only [runCmds, dvfsPhase2, List.foldl_cons, List.foldl_nil, step,
    dvfsState1, dvfsState2]
  norm_num

/-- Phase 3 takes dvfsState2 to the final state. -/
theorem runDvfs_phase3 (o : SimOracle) :
    runCmds o (dvfsState2 o) dvfsPhase3 = dvfsFinalState o := by
  simp only [runCmds, dvfsPhase3, List.foldl_cons, List.foldl_nil, step,
    dvfsState2, dvfsFinalState]
  norm_num

/-- Characterization of the whole DVFS run. -/
theorem runDvfs_eq (o : SimOracle) (argv : List String) :
    runDvfs o argv = .ok (dvfsFinalState o) := by
  rw [runDvfs, createIoTSystemDvfs_eq]
  show Except.ok (runCmds o (initState (attachWorkload sysDvfsBuilt))
    (dvfsPhase1 ++ dvfsPhase2 ++ dvfsPhase3)) = _
  rw [runCmds_append, runCmds_append, runDvfs_phase1, runDvfs_phase2,
    runDvfs_phase3]

/-- Characterization of the whole single-phase run. -/
theorem runSingle_eq (o : SimOracle) (argv : List String) :
    runSingle o argv = .ok (singleFinalState o) := by
  rw [runSingle, createIoTSystemNoL2_eq]
  show Except.ok (runCmds o (initState (attachWorkload sysNoL2Built))
    singleMain) = _
  simp only [runCmds, singleMain, List.foldl_cons, List.foldl_nil, step,
    initState, attachWorkload, singleFinalState]
  norm_num

/-- C1: in the 3-phase script, for every engine oracle and command line,
the phase-body events of the run form exactly three consecutive phase
blocks, each ordered frequency write, voltage write, statistics reset,
advance, statistics dump — so the reset precedes the advance, the dump
follows it, the frequency/voltage assignment precedes the reset, and no
steps of distinct phases interleave. -/
theorem dvfs_phase_ordering (o : SimOracle) (argv : List String) :
    ∃ s, runDvfs o argv = Except.ok s ∧
      s.log.filter isPhaseStep =
        phaseBlock "500MHz" "0.9V" (some 20000000) 0 20000000
          (o.cause 0) ++
        phaseBlock "300MHz" "0.7V" (some 20000000) 20000000 40000000
          (o.cause 1) ++
        phaseBlock "500MHz" "0.9V" none 40000000
          (40000000 + o.unboundedElapsed 2) (o.cause 2) := by
  refine ⟨dvfsFinalState o, runDvfs_eq o argv, ?_⟩
  simp [dvfsFinalState, isPhaseStep, phaseBlock]

/-- C2: in the 3-phase script, the tick count reported after phase 1 is
exactly 20000000 and after phase 2 exactly 40000000, and the run ends
with an exit line reporting the cause string of the final (third) exit
event. -/
theorem dvfs_reported_ticks (o : SimOracle) (argv : List String) :
    ∃ s, runDvfs o argv = Except.ok s ∧
      (s.output.filterMap fun l =>
        match l with
        | .phaseDone lbl t => some (lbl, t)
        | _ => none) =
        [("Phase 1", 20000000), ("Phase 2", 40000000)] ∧
      s.output.getLast? =
        some (.exitLine (40000000 + o.unboundedElapsed 2) (o.cause 2)) := by
  refine ⟨dvfsFinalState o, runDvfs_eq o argv, ?_, ?_⟩ <;>
    simp [dvfsFinalState]

/-- C3: calling connectCPU on an object of the generic base class L1Cache
yields the NotImplementedError failure for every CPU, while the
specialized subclasses L1ICache and L1DCache connect without error,
binding cpu_side to the icache port and dcache port respectively. -/
theorem connectCPU_base_raises (cpu : CPUObj) :
    mkL1Cache.connectCPU cpu = .error "NotImplementedError" ∧
    mkL1ICache.connectCPU cpu =
      .ok { mkL1ICache with cpu_side := some cpu.icache_port } ∧
    mkL1DCache.connectCPU cpu =
      .ok { mkL1DCache with cpu_side := some cpu.dcache_port } :=
  ⟨rfl, rfl, rfl⟩

/-- C4 counterexample: on a concrete oracle, the single-phase script logs
zero statistics dumps, not exactly one as claimed: it never calls
m5.stats.dump. -/
theorem single_run_dump_count_zero :
    ¬ ((runSingle oUnit []).map (fun s => s.log.countP isDumpEvent) =
        Except.ok 1) := by
  rw [runSingle_eq]
  simp [singleFinalState, isDumpEvent, Except.map, List.countP,
    List.countP.go]

/-- C4 amended: the single-phase script performs no statistics dumps at
all, exactly one termination-cause report, and no statistics resets and
no frequency/voltage changes between instantiation and termination. -/
theorem single_run_effects (o : SimOracle) (argv : List String) :
    ∃ s, runSingle o argv = Except.ok s ∧
      s.log.countP isDumpEvent = 0 ∧
      s.log.countP isReportEvent = 1 ∧
      s.log.countP isResetEvent = 0 ∧
      s.log.countP isFreqVoltEvent = 0 := by
  refine ⟨singleFinalState o, runSingle_eq o argv, ?_, ?_, ?_, ?_⟩ <;>
    simp [singleFinalState, isDumpEvent, isReportEvent, isResetEvent,
      isFreqVoltEvent]

/-- C5: in the 3-phase script, the advance calls measure the windows
(0, 20000000), (20000000, 40000000) and (40000000, 40000000 + final
elapsed): consecutive windows abut (no gaps, no overlap, starting at tick
0), and the sum of the elapsed ticks of the three windows equals the
final tick counter. -/
theorem dvfs_tick_sum (o : SimOracle) (argv : List String) :
    ∃ s, runDvfs o argv = Except.ok s ∧
      advanceWindows s.log =
        [(0, 20000000), (20000000, 40000000),
         (40000000, 40000000 + o.unboundedElapsed 2)] ∧
      ((advanceWindows s.log).map fun w => w.2 - w.1).sum = s.tick := by
  refine ⟨dvfsFinalState o, runDvfs_eq o argv, ?_, ?_⟩ <;>
    simp [dvfsFinalState, advanceWindows]
  omega

/-- C6: every interpreter step preserves all topology fields except the
CPU clock domain clock and the CPU voltage domain voltage, and an advance
step (m5.simulate) leaves the topology entirely unchanged: mutation
happens only between advance calls and only on those two fields. -/
theorem step_topology_frame (o : SimOracle) (s : ExecState) (c : Cmd) :
    eraseClockVoltage (step o s c).sys = eraseClockVoltage s.sys ∧
    ∀ limit, (step o s (.simulate limit)).sys = s.sys := by
  constructor
  · cases c <;> simp [step, eraseClockVoltage]
  · intro limit; simp [step]

/-- C7 counterexample: the two topology builders do not build identical
systems: both succeed, but the DVFS script attaches a DVFS handler while
the single-run script does not, so the built systems differ. -/
theorem built_systems_differ :
    createIoTSystemDvfs = .ok sysDvfsBuilt ∧
    createIoTSystemNoL2 = .ok sysNoL2Built ∧
    sysDvfsBuilt ≠ sysNoL2Built ∧
    sysDvfsBuilt.has_dvfs_handler = true ∧
    sysNoL2Built.has_dvfs_handler = false :=
  ⟨createIoTSystemDvfs_eq, createIoTSystemNoL2_eq, by decide, rfl, rfl⟩

/-- C7 amended: the built topologies agree on every field outside the
DVFS-handler attachment (the handler flag, its domain list, and the clock
domain domain_id); only those fields, and the phasing of the main
section, distinguish the two scripts. -/
theorem built_systems_agree_outside_dvfs :
    createIoTSystemDvfs = .ok sysDvfsBuilt ∧
    createIoTSystemNoL2 = .ok sysNoL2Built ∧
    eraseDvfsHandlerFields sysDvfsBuilt =
      eraseDvfsHandlerFields sysNoL2Built :=
  ⟨createIoTSystemDvfs_eq, createIoTSystemNoL2_eq, by decide⟩

/-- C8: neither script reads the command line: for every engine oracle and
any two argument vectors, both scripts produce identical results
(topology, tick counts, output and event log). -/
theorem scripts_ignore_argv (o : SimOracle) (a b : List String) :
    runDvfs o a = runDvfs o b ∧ runSingle o a = runSingle o b :=
  ⟨rfl, rfl⟩

/-- C9: the 3-phase script makes all three advance calls regardless of the
causes the first two return, exactly one termination-cause report occurs,
and it carries the cause of the third (final) advance; the causes of
phases 1 and 2 are discarded, the exit_event binding ending up at the
final cause. -/
theorem dvfs_causes_discarded (o : SimOracle) (argv : List String) :
    ∃ s, runDvfs o argv = Except.ok s ∧
      s.log.countP isAdvanceEvent = 3 ∧
      s.log.filterMap reportOf =
        [(40000000 + o.unboundedElapsed 2, o.cause 2)] ∧
      s.lastExitCause = some (o.cause 2) := by
  refine ⟨dvfsFinalState o, runDvfs_eq o argv, ?_, ?_, ?_⟩ <;>
    simp [dvfsFinalState, isAdvanceEvent, reportOf]

/-- C10: both builders succeed, neither built topology contains an L2
cache node, and in both the L1 instruction and data caches connect their
memory sides directly to the memory bus. -/
theorem no_l2_in_built_systems :
    createIoTSystemDvfs = .ok sysDvfsBuilt ∧
    createIoTSystemNoL2 = .ok sysNoL2Built ∧
    sysDvfsBuilt.l2cache = none ∧
    sysNoL2Built.l2cache = none ∧
    sysDvfsBuilt.icache.mem_side = some .membus_cpu_side_ports ∧
    sysDvfsBuilt.dcache.mem_side = some .membus_cpu_side_ports ∧
    sysNoL2Built.icache.mem_side = some .membus_cpu_side_ports ∧
    sysNoL2Built.dcache.mem_side = some .membus_cpu_side_ports :=
  ⟨createIoTSystemDvfs_eq, createIoTSystemNoL2_eq, rfl, rfl, rfl, rfl,
   rfl, rfl⟩

end Residency
